import Mathlib

/-!
Verification of the token lifecycle core of the ONLYOFFICE Google Drive
connector: the `UserAccess` domain model (`services/auth/web/core/domain/user.go`),
the in-memory and document-store token stores
(`services/auth/web/core/adapter/memory.go`, `mongo.go`), the user token
service (`core/service/user.go`: `CreateUser`/`GetUser`/`UpdateUser`/`DeleteUser`),
the select handler (`services/auth/web/handler/select.go`), and the AES-GCM
encryptor (`pkg/crypto/aes.go`).

Modelling conventions:
* Go's `context.Context` deadline is a boolean `ctxDone`; it is consulted
  exactly where the source consults `ctx.Done()` (the `select` statements).
  The in-memory store and the cache model ignore the context, as the
  in-memory adapter does.
* The encryptor of the service is an abstract pair of functions (the
  concrete AES implementation is randomized and lives behind the
  `crypto.Encryptor` interface); its relevant algebraic facts are taken as
  hypotheses and discharged by concrete instances in witnesses.
* `time.Parse(time.RFC3339, ·)` and `Format` are abstract environment
  functions producing/consuming Unix milliseconds, as `exp.UnixMilli()` is
  what the source consumes.
* The two encrypt/decrypt goroutines plus the buffered-channel `select`
  are modelled sequentially.  In every configuration a theorem below
  depends on, at most one `select` case is ready, so Go's random choice
  among ready cases is irrelevant; the model resolves the ambiguous
  remainder by preferring the error channel.
* Go string trimming (`strings.TrimSpace`) is modelled by a structural
  character-list trim over the ASCII whitespace characters (all inputs in
  this development are ASCII).
* Go `int64` arithmetic in the cache-TTL computation is wrapped
  explicitly; `time.Duration` is its `int64` nanosecond count.
-/

namespace GDrive

/-- Go `strings.TrimSpace` whitespace test (restricted to ASCII). -/
def isSpaceChar (c : Char) : Bool :=
  c == ' ' || c == '\t' || c == '\n' || c == '\r'

/-- Trim leading and trailing whitespace from a character list. -/
def trimList (l : List Char) : List Char :=
  ((l.dropWhile isSpaceChar).reverse.dropWhile isSpaceChar).reverse

/-- Model of Go `strings.TrimSpace`. -/
def goTrim (s : String) : String := ⟨trimList s.data⟩

/-- `domain.UserAccess`: one Drive user's delegated authorization grant. -/
structure UserAccess where
  id : String
  accessToken : String
  refreshToken : String
  tokenType : String
  scope : String
  expiry : String
deriving Repr, DecidableEq

/-- Go zero value `domain.UserAccess{}`. -/
def zeroUser : UserAccess := ⟨"", "", "", "", "", ""⟩

/-- The error values produced by the auth service layer. -/
inductive ServiceError where
  /-- `domain.InvalidModelFieldError` (the validation error family). -/
  | invalidModelField (model field reason : String)
  /-- `service.InvalidServiceParameterError`. -/
  | invalidServiceParameter (name reason : String)
  /-- `service.ErrOperationTimeout`. -/
  | operationTimeout
  /-- adapter-level not-found error. -/
  | notFound (msg : String)
  /-- an error surfaced by the `crypto.Encryptor`. -/
  | encryptorError (msg : String)
  /-- a `time.Parse(time.RFC3339, value)` failure. -/
  | timeParseError (value : String)
  /-- an error surfaced by the cache backend for `key`. -/
  | cacheBackendError (key : String)
  /-- an error surfaced by the upstream OAuth provider. -/
  | upstreamProviderError (msg : String)
  /-- `pkg/crypto` `_ErrInvalidNonceSize`. -/
  | invalidNonceSize
  /-- a base64 decode failure inside `Decrypt`. -/
  | base64DecodeError
deriving Repr, DecidableEq

/-- Whether an error belongs to the `ValidationError` family
(`domain.InvalidModelFieldError`). -/
def ServiceError.isValidation : ServiceError → Bool
  | .invalidModelField _ _ _ => true
  | _ => false

/-- Field-wise `strings.TrimSpace`, as performed in place by
`UserAccess.Validate` (pointer receiver). -/
def UserAccess.trimmed (u : UserAccess) : UserAccess :=
  { id := goTrim u.id
    accessToken := goTrim u.accessToken
    refreshToken := goTrim u.refreshToken
    tokenType := goTrim u.tokenType
    scope := goTrim u.scope
    expiry := goTrim u.expiry }

/-- `UserAccess.Validate`: trims all six fields in place, then rejects the
first blank one.  Returns the mutated (trimmed) receiver together with the
optional error. -/
def UserAccess.validate (u : UserAccess) : UserAccess × Option ServiceError :=
  let t := u.trimmed
  if t.id = "" then
    (t, some (.invalidModelField "User" "ID" "Should not be empty"))
  else if t.accessToken = "" then
    (t, some (.invalidModelField "User" "OAuth Access Token" "Should not be empty"))
  else if t.refreshToken = "" then
    (t, some (.invalidModelField "User" "OAuth Refresh Token" "Should not be empty"))
  else if t.tokenType = "" then
    (t, some (.invalidModelField "User" "OAuth Token Type" "Should not be empty"))
  else if t.scope = "" then
    (t, some (.invalidModelField "User" "OAuth Scope" "Should not be empty"))
  else if t.expiry = "" then
    (t, some (.invalidModelField "User" "Expiry" "Should not be empty"))
  else (t, none)

/-! ### In-memory token store (`adapter/memory.go`)

The Go adapter keeps `map[string][]byte` of JSON blobs; since
`json.Marshal`/`Unmarshal` of the all-string struct is lossless and never
fails, the map is modelled as an association list of `UserAccess`. -/

abbrev MemKVS := List (String × UserAccess)

/-- Map lookup `m.kvs[k]`. -/
def kvsLookup (m : MemKVS) (k : String) : Option UserAccess :=
  match m.find? (fun p => p.1 == k) with
  | some p => some p.2
  | none => none

/-- Map assignment `m.kvs[k] = v` (replaces an existing binding). -/
def kvsInsert (m : MemKVS) (k : String) (v : UserAccess) : MemKVS :=
  match m with
  | [] => [(k, v)]
  | p :: rest => if p.1 == k then (k, v) :: rest else p :: kvsInsert rest k v

/-- Map deletion `delete(m.kvs, k)`. -/
def kvsErase (m : MemKVS) (k : String) : MemKVS :=
  m.filter (fun p => !(p.1 == k))

/-- `memoryUserAdapter.InsertUser`: stores the record unconditionally — it
performs no validation whatsoever. -/
def memoryInsertUser (m : MemKVS) (user : UserAccess) : MemKVS × Option ServiceError :=
  (kvsInsert m user.id user, none)

/-- `memoryUserAdapter.SelectUserByID`. -/
def memorySelectUserByID (m : MemKVS) (uid : String) : UserAccess × Option ServiceError :=
  match kvsLookup m uid with
  | none => (zeroUser, some (.notFound "user with this id doesn't exist"))
  | some u => (u, none)

/-- `memoryUserAdapter.UpsertUser`. -/
def memoryUpsertUser (m : MemKVS) (user : UserAccess) :
    MemKVS × UserAccess × Option ServiceError :=
  (kvsInsert m user.id user, user, none)

/-- `memoryUserAdapter.DeleteUserByID`: the raw `uid` is looked up, never
trimmed. -/
def memoryDeleteUserByID (m : MemKVS) (uid : String) : MemKVS × Option ServiceError :=
  match kvsLookup m uid with
  | none => (m, some (.notFound "user with this id doesn't exist"))
  | some _ => (kvsErase m uid, none)

/-! ### Document-store token store (`adapter/mongo.go`)

Only the validation-and-save shape matters here; the single-document
transaction (`FirstWithCtx` then create-or-update keyed by `uid`) is an
upsert of the whole record, modelled over the same association list. -/

/-- `mongoUserAdapter.save`: create-or-update keyed by `uid` inside a
single-document transaction. -/
def mongoSave (db : MemKVS) (user : UserAccess) : MemKVS :=
  kvsInsert db user.id user

/-- `mongoUserAdapter.InsertUser`: validates (trimming in place), then
saves the trimmed record. -/
def mongoInsertUser (db : MemKVS) (user : UserAccess) : MemKVS × Option ServiceError :=
  match user.validate with
  | (_, some e) => (db, some e)
  | (t, none) => (mongoSave db t, none)

/-! ### Cache and environment -/

/-- Cache contents: key, stored record, and the TTL (nanoseconds) the
entry was `Put` with. -/
abbrev CacheKVS := List (String × UserAccess × Int)

/-- Cache lookup of the stored value. -/
def cacheLookup (c : CacheKVS) (k : String) : Option UserAccess :=
  match c.find? (fun p => p.1 == k) with
  | some p => some p.2.1
  | none => none

/-- Cache `Put` (replaces an existing entry). -/
def cacheInsert (c : CacheKVS) (k : String) (v : UserAccess) (ttl : Int) : CacheKVS :=
  match c with
  | [] => [(k, v, ttl)]
  | p :: rest => if p.1 == k then (k, v, ttl) :: rest else p :: cacheInsert rest k v ttl

/-- Cache `Delete`. -/
def cacheErase (c : CacheKVS) (k : String) : CacheKVS :=
  c.filter (fun p => !(p.1 == k))

/-- The mutable state visible to the token service: the backing store and
the cache backend's contents. -/
structure SvcState where
  store : MemKVS
  cache : CacheKVS
deriving Repr, DecidableEq

/-- An upstream `oauth2.Token` as consumed by the select handler. -/
structure OAuthToken where
  accessToken : String
  refreshToken : String
  expiryMilli : Int
deriving Repr, DecidableEq

/-- The deterministic environment of one request: the encryptor closed
over the client secret, the time functions, the context deadline state,
the cache backend's failure behaviour, and the upstream OAuth provider
outcome. -/
structure Env where
  encrypt : String → Except ServiceError String
  decrypt : String → Except ServiceError String
  /-- `time.Parse(time.RFC3339, s)` returning `UnixMilli` on success. -/
  parseRFC3339Milli : String → Option Int
  /-- `time.Unix*(m).UTC().Format(time.RFC3339)`. -/
  formatRFC3339Milli : Int → String
  /-- `time.Now().UnixMilli()`. -/
  nowMilli : Int
  /-- whether the request context's deadline has already elapsed. -/
  ctxDone : Bool
  /-- whether the cache backend errors on `Get` of a key (a miss also
  yields a non-nil error from the backend, modelled via `cacheLookup`). -/
  cacheGetFails : String → Bool
  /-- whether the cache backend errors on `Put` of a key. -/
  cachePutFails : String → Bool
  /-- the cache backend's error on `Delete` of a key, if any. -/
  cacheDeleteErr : String → Option ServiceError
  /-- outcome of `TokenSource(...).Token()` at the upstream provider. -/
  providerToken : Except ServiceError OAuthToken

/-- `cache.Get(ctx, k)` as observed by the service: a backend failure or a
missing key both leave `res` unusable (`err == nil && res != nil` fails). -/
def cacheGet (env : Env) (c : CacheKVS) (k : String) : Option UserAccess :=
  if env.cacheGetFails k then none else cacheLookup c k

/-- Two's-complement wrap of Go `int64` arithmetic. -/
def int64wrap (n : Int) : Int :=
  (n + 9223372036854775808) % 18446744073709551616 - 9223372036854775808

/-- The cache TTL the service computes from a parsed expiry, in
nanoseconds: `time.Duration((exp.UnixMilli()-10)*1e6/6)`.  Note that
`time.Now()` does not occur in the expression. -/
def cacheTTLNanos (expMilli : Int) : Int :=
  int64wrap (Int.tdiv (int64wrap ((int64wrap (expMilli - 10)) * 1000000)) 6)

/-! ### Token service (`core/service/user.go`), instantiated with the
in-memory store adapter. -/

/-- `userService.CreateUser`: validate, encrypt both tokens (fan-out),
`select` on error/deadline, then `InsertUser` the encrypted record. -/
def createUser (env : Env) (st : SvcState) (user : UserAccess) :
    Option ServiceError × SvcState :=
  match user.validate with
  | (_, some e) => (some e, st)
  | (t, none) =>
    match env.encrypt t.accessToken, env.encrypt t.refreshToken with
    | .error e, _ => (some e, st)
    | _, .error e => (some e, st)
    | .ok ea, .ok er =>
      if env.ctxDone then (some .operationTimeout, st)
      else
        let (store1, ierr) := memoryInsertUser st.store
          { id := t.id, accessToken := ea, refreshToken := er
            tokenType := t.tokenType, scope := t.scope, expiry := t.expiry }
        (ierr, { st with store := store1 })

/-- The straight-line fetch phase of `userService.GetUser`: trim and check
the id, consult the cache (`Validate` trims a decoded hit in place), fall
back to the store, parse the stored expiry, and re-populate the cache
(`Put` failures are only logged). -/
def getUserFetch (env : Env) (st : SvcState) (uid : String) :
    Except ServiceError (UserAccess × SvcState) :=
  let id := goTrim uid
  if id = "" then .error (.invalidServiceParameter "UID" "Should not be blank")
  else
    let cached := (cacheGet env st.cache id).getD zeroUser
    match cached.validate with
    | (cval, none) => .ok (cval, st)
    | (_, some _) =>
      match memorySelectUserByID st.store id with
      | (_, some e) => .error e
      | (u, none) =>
        match env.parseRFC3339Milli u.expiry with
        | none => .error (.timeParseError u.expiry)
        | some m =>
          if env.cachePutFails id then .ok (u, st)
          else .ok (u, { st with cache := cacheInsert st.cache id u (cacheTTLNanos m) })

/-- `userService.GetUser`: fetch phase, then the decrypt fan-out and the
`select` on error/deadline.  A Go `(user, err≠nil)` return is modelled as
`.error err`. -/
def getUser (env : Env) (st : SvcState) (uid : String) :
    Except ServiceError UserAccess × SvcState :=
  match getUserFetch env st uid with
  | .error e => (.error e, st)
  | .ok (user, st1) =>
    match env.decrypt user.accessToken, env.decrypt user.refreshToken with
    | .error e, _ => (.error e, st1)
    | _, .error e => (.error e, st1)
    | .ok a, .ok r =>
      if env.ctxDone then (.error .operationTimeout, st1)
      else
        (.ok { id := user.id, accessToken := a, refreshToken := r
               tokenType := user.tokenType, scope := user.scope, expiry := user.expiry },
         st1)

/-- `userService.UpdateUser`: validate, encrypt both tokens, `select` on
error/deadline, parse the plaintext expiry, `Put` the encrypted record
into the cache (a failed `Put` triggers a best-effort compensating
`Delete`), then `UpsertUser`; returns the plaintext (trimmed) input. -/
def updateUser (env : Env) (st : SvcState) (user : UserAccess) :
    (UserAccess × Option ServiceError) × SvcState :=
  match user.validate with
  | (_, some e) => ((zeroUser, some e), st)
  | (t, none) =>
    match env.encrypt t.accessToken, env.encrypt t.refreshToken with
    | .error e, _ => ((t, some e), st)
    | _, .error e => ((t, some e), st)
    | .ok ea, .ok er =>
      if env.ctxDone then ((t, some .operationTimeout), st)
      else
        let euser : UserAccess :=
          { id := t.id, accessToken := ea, refreshToken := er
            tokenType := t.tokenType, scope := t.scope, expiry := t.expiry }
        match env.parseRFC3339Milli t.expiry with
        | none => ((t, some (.timeParseError t.expiry)), st)
        | some m =>
          let st1 :=
            if env.cachePutFails euser.id then
              match env.cacheDeleteErr euser.id with
              | some _ => st
              | none => { st with cache := cacheErase st.cache euser.id }
            else { st with cache := cacheInsert st.cache euser.id euser (cacheTTLNanos m) }
          let (store1, _, uerr) := memoryUpsertUser st1.store euser
          match uerr with
          | some e => ((t, some e), { st1 with store := store1 })
          | none => ((t, none), { st1 with store := store1 })

/-- `userService.DeleteUser`: trims `uid` for the blank check only, then
forwards the raw `uid` to the cache and the store; a failing cache
`Delete` is returned immediately. -/
def deleteUser (env : Env) (st : SvcState) (uid : String) :
    Option ServiceError × SvcState :=
  let id := goTrim uid
  if id = "" then (some (.invalidServiceParameter "UID" "Should not be blank"), st)
  else
    if !(env.cacheGetFails uid) && (cacheLookup st.cache uid).isSome then
      match env.cacheDeleteErr uid with
      | some e => (some e, st)
      | none =>
        let st1 := { st with cache := cacheErase st.cache uid }
        let (store1, derr) := memoryDeleteUserByID st1.store uid
        (derr, { st1 with store := store1 })
    else
      let (store1, derr) := memoryDeleteUserByID st.store uid
      (derr, { st with store := store1 })

/-! ### Select handler (`handler/select.go`)

The single-flight group only collapses concurrent duplicate calls; for a
single call `group.Do` simply runs the callback, which is what is
modelled.  The callback's `interface{}` result is `none` exactly when the
callback returns literal `nil`. -/

/-- The callback passed to `group.Do` in `UserSelectHandler.GetUser`. -/
def selectCallback (env : Env) (st : SvcState) (uid : String) :
    (Option UserAccess × Option ServiceError) × SvcState :=
  match getUser env st uid with
  | (.error e, st1) => ((none, some e), st1)
  | (.ok user, st1) =>
    match env.parseRFC3339Milli user.expiry with
    | none => ((some user, some (.timeParseError user.expiry)), st1)
    | some m =>
      if m - 120000 < env.nowMilli then
        match env.providerToken with
        | .error e => ((some user, some e), st1)
        | .ok nt =>
          let ((uret, uerr), st2) := updateUser env st1
            { id := user.id, accessToken := nt.accessToken
              refreshToken := nt.refreshToken, tokenType := "Bearer"
              scope := user.scope, expiry := env.formatRFC3339Milli nt.expiryMilli }
          match uerr with
          | some e => ((some uret, some e), st2)
          | none => ((some uret, none), st2)
      else ((some user, none), st1)

/-- `UserSelectHandler.GetUser`: runs the callback, then type-asserts the
`interface{}` result; when the assertion succeeds the record is written to
`res` and `nil` is returned, the callback's error being consulted only
otherwise.  Result: (error returned to the RPC caller, value written to
`res`). -/
def selectHandlerGetUser (env : Env) (st : SvcState) (uid : String) :
    (Option ServiceError × Option UserAccess) × SvcState :=
  match selectCallback env st uid with
  | ((some usr, _), st1) => ((none, some usr), st1)
  | ((none, e), st1) => ((e, none), st1)

/-! ### AES-GCM encryptor (`pkg/crypto/aes.go`)

The cipher internals (`aes.NewCipher` on the padded 32-byte key and
`cipher.NewGCM` never fail; `gcm.Open` is the authenticated open) and the
base64 codec are abstracted; the control flow of `Decrypt` is embedded
byte-for-byte. -/

/-- `gcm.NonceSize()` for the standard GCM construction. -/
def gcmStandardNonceSize : Nat := 12

/-- `validKey := make([]byte, 32); copy(validKey, key)`. -/
def aesValidKey (key : List Nat) : List Nat :=
  (key ++ List.replicate 32 0).take 32

/-- The external collaborators of `Decrypt`: the base64 codec and the
authenticated GCM open (key, nonce, ciphertext; `none` models an
authentication failure, where Go's `gcm.Open` returns a nil plaintext and
an error). -/
structure AesEnv where
  b64decode : String → Option (List Nat)
  gcmOpen : List Nat → List Nat → List Nat → Option (List Nat)

/-- Go `string(bs)` on a byte slice (nil slice gives `""`). -/
def bytesToString (bs : List Nat) : String := ⟨bs.map Char.ofNat⟩

/-- `aesEncryptor.Decrypt`: base64-decode, reject payloads shorter than
the nonce, split nonce/ciphertext, then `gcm.Open` with the error
discarded (`plaintext, _ := gcm.Open(...)`). -/
def aesDecrypt (aes : AesEnv) (text : String) (key : List Nat) :
    Except ServiceError String :=
  let validKey := aesValidKey key
  match aes.b64decode text with
  | none => .error .base64DecodeError
  | some buf =>
    if buf.length < gcmStandardNonceSize then .error .invalidNonceSize
    else
      let nonce := buf.take gcmStandardNonceSize
      let ciphertext := buf.drop gcmStandardNonceSize
      match aes.gcmOpen validKey nonce ciphertext with
      | some plaintext => .ok (bytesToString plaintext)
      | none => .ok (bytesToString [])

/-! ### Concrete instances used to witness and refute claims -/

/-- A benign environment: a trivially invertible encryptor (prefix a
marker character; strip one character to decrypt), an RFC3339 oracle
knowing the timestamp `2099-01-01T00:00:00Z`, a live context, and
fault-free cache and provider backends. -/
def envW : Env :=
  { encrypt := fun s => .ok ("E" ++ s)
    decrypt := fun s => .ok ⟨s.data.drop 1⟩
    parseRFC3339Milli := fun s =>
      if s = "2099-01-01T00:00:00Z" then some 4070908800000 else none
    formatRFC3339Milli := fun _ => "2099-01-01T00:00:00Z"
    nowMilli := 1704067200000
    ctxDone := false
    cacheGetFails := fun _ => false
    cachePutFails := fun _ => false
    cacheDeleteErr := fun _ => none
    providerToken := .error (.upstreamProviderError "invalid_grant") }

/-- `envW` with an already-elapsed context deadline. -/
def envT : Env := { envW with ctxDone := true }

/-- An already-trimmed, valid record as it would sit encrypted in the
store or cache under `envW`'s encryptor. -/
def recT : UserAccess := ⟨"u1", "EA", "ER", "Bearer", "drive", "2099-01-01T00:00:00Z"⟩

/-- A state whose cache holds `recT` for `"u1"`. -/
def stT : SvcState := ⟨[], [("u1", recT, 0)]⟩

/-- A valid `UserAccess` whose access token carries surrounding
whitespace (blank-free after trimming). -/
def uPadded : UserAccess := ⟨"u1", " A ", "R", "Bearer", "drive", "2099-01-01T00:00:00Z"⟩

/-- The empty service state. -/
def st0 : SvcState := ⟨[], []⟩

/-- Environment for the TTL scenario: `now` is 2024-01-01T00:00:00Z and
the oracle knows the timestamp one minute later. -/
def envC2 : Env :=
  { envW with
    decrypt := fun s => .ok s
    parseRFC3339Milli := fun s =>
      if s = "2024-01-01T00:01:00Z" then some 1704067260000 else none }

/-- A stored (encrypted) record expiring at 2024-01-01T00:01:00Z, sixty
seconds after `envC2.nowMilli`. -/
def recC2 : UserAccess := ⟨"u1", "EA", "ER", "Bearer", "drive", "2024-01-01T00:01:00Z"⟩

/-- A state whose store holds `recC2` and whose cache is empty. -/
def stC2 : SvcState := ⟨[("u1", recC2)], []⟩

/-- The plaintext counterpart of `recC2`. -/
def recC2plain : UserAccess := ⟨"u1", "A", "R", "Bearer", "drive", "2024-01-01T00:01:00Z"⟩

/-- Environment for the select-handler scenario: the stored record
expires thirty seconds after `now` (inside the two-minute refresh
window) and the upstream provider rejects the refresh. -/
def envC4 : Env :=
  { envW with
    parseRFC3339Milli := fun s =>
      if s = "2024-01-01T00:00:30Z" then some 1704067230000 else none }

/-- Stored (encrypted) record expiring thirty seconds after
`envC4.nowMilli`. -/
def recC4 : UserAccess := ⟨"u1", "EA", "ER", "Bearer", "drive", "2024-01-01T00:00:30Z"⟩

/-- The plaintext record the service hands the select handler. -/
def recC4plain : UserAccess := ⟨"u1", "A", "R", "Bearer", "drive", "2024-01-01T00:00:30Z"⟩

/-- A state whose store holds `recC4`. -/
def stC4 : SvcState := ⟨[("u1", recC4)], []⟩

/-- Environment whose cache backend fails `Delete` on key `"u1"`. -/
def envC7 : Env :=
  { envW with cacheDeleteErr := fun k =>
      if k = "u1" then some (.cacheBackendError "u1") else none }

/-- A state holding `recT` both in the store and in the cache. -/
def stC7 : SvcState := ⟨[("u1", recT)], [("u1", recT, 0)]⟩

/-- Environment whose RFC3339 oracle parses nothing (every expiry string
in scope is unparseable). -/
def envC8 : Env := { envW with parseRFC3339Milli := fun _ => none }

/-- A field-wise non-blank record whose expiry is not an RFC3339
timestamp. -/
def uBadExpiry : UserAccess := ⟨"u1", "A", "R", "Bearer", "drive", "not-a-date"⟩

/-- A record whose access token is blank after trimming (invalid). -/
def uBlankToken : UserAccess := ⟨"u1", "  ", "R", "Bearer", "drive", "2099-01-01T00:00:00Z"⟩

/-- A whitespace-padded user id whose trimmed core is `"u1"`. -/
def uidPadded : String := " u1 "

/-- A state whose store holds `recT` under the trimmed id `"u1"` only. -/
def st10 : SvcState := ⟨[("u1", recT)], []⟩

/-- The state after `CreateUser envW st0 uPadded`: the trimmed record,
tokens encrypted by `envW`, stored under the trimmed id. -/
def stW1 : SvcState :=
  ⟨[("u1", ⟨"u1", "EA", "ER", "Bearer", "drive", "2099-01-01T00:00:00Z"⟩)], []⟩

/-- The state after the select handler's initial `GetUser` under
`envC4`: the encrypted record re-populated into the cache with the TTL
the code computes from its expiry. -/
def stC4after : SvcState :=
  ⟨[("u1", recC4)], [("u1", recC4, cacheTTLNanos 1704067230000)]⟩

/-- The encrypted record `CreateUser` persists for `uBadExpiry` under
`envC8`. -/
def recC8 : UserAccess := ⟨"u1", "EA", "ER", "Bearer", "drive", "not-a-date"⟩

/-- The state after `CreateUser envC8 st0 uBadExpiry`. -/
def stC8after : SvcState := ⟨[("u1", recC8)], []⟩

/-- AES environment whose base64 codec decodes everything to an
11-byte payload and whose GCM open always fails authentication. -/
def aes0 : AesEnv := ⟨fun _ => some (List.range 11), fun _ _ _ => none⟩

/-- AES environment decoding to a 16-byte payload, still failing
authentication. -/
def aes1 : AesEnv := ⟨fun _ => some (List.range 16), fun _ _ _ => none⟩

/-! ### Basic lemmas -/

instance {ε α : Type} [DecidableEq ε] [DecidableEq α] : DecidableEq (Except ε α) := fun x y =>
  match x, y with
  | .error e, .error f =>
    if h : e = f then .isTrue (by rw [h]) else .isFalse (fun hc => h (by cases hc; rfl))
  | .error _, .ok _ => .isFalse (fun hc => Except.noConfusion hc)
  | .ok _, .error _ => .isFalse (fun hc => Except.noConfusion hc)
  | .ok a, .ok b =>
    if h : a = b then .isTrue (by rw [h]) else .isFalse (fun hc => h (by cases hc; rfl))

/-- `Validate` always hands back the field-wise trimmed receiver. -/
theorem validate_fst (u : UserAccess) : (u.validate).1 = u.trimmed := by
  simp only [UserAccess.validate]
  split_ifs <;> rfl

/-- Any error produced by `Validate` is a `ValidationError`
(an `InvalidModelFieldError`). -/
theorem validate_err_isValidation (u : UserAccess) (e : ServiceError)
    (h : (u.validate).2 = some e) : e.isValidation = true := by
  simp only [UserAccess.validate] at h
  split_ifs at h <;> simp_all [ServiceError.isValidation] <;> rw [← h]

/-- If any of the six fields is blank after trimming, `Validate` rejects
the record with a `ValidationError`. -/
theorem validate_blank (u : UserAccess)
    (h : goTrim u.id = "" ∨ goTrim u.accessToken = "" ∨ goTrim u.refreshToken = ""
      ∨ goTrim u.tokenType = "" ∨ goTrim u.scope = "" ∨ goTrim u.expiry = "") :
    ∃ e, e.isValidation = true ∧ u.validate = (u.trimmed, some e) := by
  simp only [UserAccess.validate, UserAccess.trimmed]
  split_ifs with h1 h2 h3 h4 h5 h6
  · exact ⟨.invalidModelField "User" "ID" "Should not be empty", rfl, rfl⟩
  · exact ⟨.invalidModelField "User" "OAuth Access Token" "Should not be empty", rfl, rfl⟩
  · exact ⟨.invalidModelField "User" "OAuth Refresh Token" "Should not be empty", rfl, rfl⟩
  · exact ⟨.invalidModelField "User" "OAuth Token Type" "Should not be empty", rfl, rfl⟩
  · exact ⟨.invalidModelField "User" "OAuth Scope" "Should not be empty", rfl, rfl⟩
  · exact ⟨.invalidModelField "User" "Expiry" "Should not be empty", rfl, rfl⟩
  · exact absurd h (by simp_all [UserAccess.trimmed])

/-- A successful `Validate` pins the returned record to the trimmed
receiver and guarantees the trimmed id is non-blank. -/
theorem validate_ok (u t : UserAccess) (h : u.validate = (t, none)) :
    t = u.trimmed ∧ goTrim u.id ≠ "" := by
  simp only [UserAccess.validate, UserAccess.trimmed] at h
  split_ifs at h with h1 h2 h3 h4 h5 h6 <;>
    simp_all [Prod.ext_iff, UserAccess.trimmed]

/-- Looking up the key just inserted finds the inserted value. -/
theorem kvsLookup_insert_self (m : MemKVS) (k : String) (v : UserAccess) :
    kvsLookup (kvsInsert m k v) k = some v := by
  induction m with
  | nil => simp [kvsInsert, kvsLookup]
  | cons p rest ih =>
    by_cases h : p.1 == k
    · simp [kvsInsert, h, kvsLookup]
    · simp only [kvsInsert, h, Bool.false_eq_true, if_false]
      simp only [kvsLookup, List.find?, h] at ih ⊢
      exact ih

/-! ### Claim theorems -/

/-- C5: for every key and every base64-decodable ciphertext, `Decrypt`
fails with `InvalidNonceSizeError` exactly when the decoded payload is
shorter than the GCM nonce length (12), and when the payload is long
enough but the authentication check of `gcm.Open` fails it returns the
empty string with a nil error. -/
theorem aesDecrypt_nonce_iff_and_silent_auth_failure
    (aes : AesEnv) (key : List Nat) (text : String) (buf : List Nat)
    (hdec : aes.b64decode text = some buf) :
    ((aesDecrypt aes text key = .error .invalidNonceSize) ↔ buf.length < 12)
    ∧ (12 ≤ buf.length →
        aes.gcmOpen (aesValidKey key) (buf.take 12) (buf.drop 12) = none →
        aesDecrypt aes text key = .ok "") := by
  constructor
  · constructor
    · intro h
      by_contra hlen
      simp only [aesDecrypt, hdec, gcmStandardNonceSize, if_neg hlen] at h
      split at h <;> exact Except.noConfusion h
    · intro h
      simp [aesDecrypt, hdec, gcmStandardNonceSize, h]
  · intro hlen hopen
    have hnl : ¬ buf.length < 12 := Nat.not_lt.mpr hlen
    simp only [aesDecrypt, hdec, gcmStandardNonceSize, if_neg hnl, hopen]
    rfl

/-- Witness for C5: an 11-byte decoded payload triggers
`InvalidNonceSizeError`, and a 16-byte payload with failing
authentication yields the empty string without error. -/
theorem aesDecrypt_nonce_iff_and_silent_auth_failure_witness :
    aesDecrypt aes0 "x" [] = .error .invalidNonceSize
    ∧ aesDecrypt aes1 "x" [] = .ok "" := by
  constructor
  · exact (aesDecrypt_nonce_iff_and_silent_auth_failure aes0 [] "x" (List.range 11)
      rfl).1.mpr (by decide)
  · exact (aesDecrypt_nonce_iff_and_silent_auth_failure aes1 [] "x" (List.range 16)
      rfl).2 (by decide) rfl

/-- C6: a `UserAccess` with any of the six fields blank after trimming is
rejected by both `CreateUser` and `UpdateUser` with a `ValidationError`
(the same `InvalidModelFieldError`), and neither the store nor the cache
is touched. -/
theorem blank_field_rejected_no_mutation (env : Env) (st : SvcState) (u : UserAccess)
    (h : goTrim u.id = "" ∨ goTrim u.accessToken = "" ∨ goTrim u.refreshToken = ""
      ∨ goTrim u.tokenType = "" ∨ goTrim u.scope = "" ∨ goTrim u.expiry = "") :
    ∃ e, e.isValidation = true
      ∧ createUser env st u = (some e, st)
      ∧ updateUser env st u = ((zeroUser, some e), st) := by
  obtain ⟨e, he, hv⟩ := validate_blank u h
  exact ⟨e, he, by simp [createUser, hv], by simp [updateUser, hv]⟩

/-- Witness for C6: a record whose access token trims to blank is
rejected by both operations and the empty state is unchanged. -/
theorem blank_field_rejected_no_mutation_witness :
    ∃ e, e.isValidation = true
      ∧ createUser envW st0 uBlankToken = (some e, st0)
      ∧ updateUser envW st0 uBlankToken = ((zeroUser, some e), st0) :=
  blank_field_rejected_no_mutation envW st0 uBlankToken (Or.inr (Or.inl (by decide)))

/-- C3: with an already-elapsed context deadline, a `GetUser` whose fetch
phase succeeded and whose two decrypt operations succeed returns
`OperationTimeoutError`, and an `UpdateUser` whose validation and two
encrypt operations succeed returns `OperationTimeoutError`; neither
blocks or silently succeeds. -/
theorem expired_context_returns_operation_timeout
    (env : Env) (hctx : env.ctxDone = true)
    (st stG : SvcState) (uid : String) (fetched : UserAccess) (a r : String)
    (hfetch : getUserFetch env st uid = .ok (fetched, stG))
    (hda : env.decrypt fetched.accessToken = .ok a)
    (hdr : env.decrypt fetched.refreshToken = .ok r)
    (stU : SvcState) (u t : UserAccess) (ea er : String)
    (hval : u.validate = (t, none))
    (hea : env.encrypt t.accessToken = .ok ea)
    (her : env.encrypt t.refreshToken = .ok er) :
    getUser env st uid = (.error .operationTimeout, stG)
    ∧ updateUser env stU u = ((t, some .operationTimeout), stU) := by
  constructor
  · simp [getUser, hfetch, hda, hdr, hctx]
  · simp [updateUser, hval, hea, her, hctx]

/-- Witness for C3: under `envT` (expired deadline) a cache-hit `GetUser`
and a valid `UpdateUser` both report `OperationTimeoutError`. -/
theorem expired_context_returns_operation_timeout_witness :
    getUser envT stT "u1" = (.error .operationTimeout, stT)
    ∧ updateUser envT stT recT = ((recT, some .operationTimeout), stT) :=
  expired_context_returns_operation_timeout envT rfl stT stT "u1" recT "A" "R"
    (by decide) (by decide) (by decide) stT recT recT "EEA" "EER"
    (by decide) (by decide) (by decide)

/-- C1 (amended): for a `UserAccess` that passes validation, with a
round-tripping encryptor, a parseable (trimmed) expiry, a live context
and a cache miss, `CreateUser` followed by `GetUser u.id` succeeds and
returns the field-wise *trimmed* `u` — the encrypted tokens stored by
`CreateUser` are decrypted back to the plaintexts on retrieval. -/
theorem create_then_get_roundtrip_trimmed
    (env : Env) (st : SvcState) (u t : UserAccess) (ea er : String) (m : Int)
    (hval : u.validate = (t, none))
    (hea : env.encrypt t.accessToken = .ok ea)
    (her : env.encrypt t.refreshToken = .ok er)
    (hdea : env.decrypt ea = .ok t.accessToken)
    (hder : env.decrypt er = .ok t.refreshToken)
    (hparse : env.parseRFC3339Milli t.expiry = some m)
    (hctx : env.ctxDone = false)
    (hcache : cacheGet env st.cache (goTrim u.id) = none) :
    ∃ st1, createUser env st u = (none, st1)
      ∧ (getUser env st1 u.id).1 = .ok t := by
  obtain ⟨ht, hid⟩ := validate_ok u t hval
  have hidt : goTrim u.id = t.id := by rw [ht]; rfl
  have hidt' : t.id ≠ "" := hidt ▸ hid
  have hzv : zeroUser.validate =
      (zeroUser, some (ServiceError.invalidModelField "User" "ID" "Should not be empty")) := rfl
  have hc : createUser env st u =
      (none, { st with store := (kvsInsert st.store t.id
        ⟨t.id, ea, er, t.tokenType, t.scope, t.expiry⟩) }) := by
    simp [createUser, hval, hea, her, hctx, memoryInsertUser]
  refine ⟨_, hc, ?_⟩
  rw [hidt] at hcache
  have hsel : memorySelectUserByID
      (kvsInsert st.store t.id ⟨t.id, ea, er, t.tokenType, t.scope, t.expiry⟩) t.id =
      (⟨t.id, ea, er, t.tokenType, t.scope, t.expiry⟩, none) := by
    simp [memorySelectUserByID, kvsLookup_insert_self]
  cases hpf : env.cachePutFails t.id with
  | true =>
    simp [getUser, getUserFetch, hidt, hidt', hcache, hzv, hsel, hparse, hpf, hdea, hder, hctx]
  | false =>
    simp [getUser, getUserFetch, hidt, hidt', hcache, hzv, hsel, hparse, hpf, hdea, hder, hctx]

/-- Witness for C1 (amended): concrete round trip of the padded record
`uPadded` through `CreateUser`/`GetUser` under `envW`. -/
theorem create_then_get_roundtrip_trimmed_witness :
    createUser envW st0 uPadded = (none, stW1)
    ∧ (getUser envW stW1 uPadded.id).1 = .ok uPadded.trimmed := by
  obtain ⟨st1, h1, h2⟩ := create_then_get_roundtrip_trimmed envW st0 uPadded
    uPadded.trimmed "EA" "ER" 4070908800000 (by decide) (by decide) (by decide)
    (by decide) (by decide) (by decide) rfl (by decide)
  have h0 : createUser envW st0 uPadded = (none, stW1) := by decide
  have hs : ((none : Option ServiceError), st1) = ((none : Option ServiceError), stW1) :=
    h1.symm.trans h0
  cases hs
  exact ⟨h0, h2⟩

/-- Counterexample to C1 as stated: `uPadded` has all six fields
non-blank after trimming and a parseable expiry, yet the round trip
returns the trimmed record, which differs from `uPadded` — "plaintext in
equals plaintext out" holds only up to trimming. -/
theorem create_then_get_not_identity_on_padded_input :
    (uPadded.validate).2 = none
    ∧ envW.parseRFC3339Milli uPadded.expiry = some 4070908800000
    ∧ (createUser envW st0 uPadded).1 = none
    ∧ (getUser envW (createUser envW st0 uPadded).2 uPadded.id).1 = .ok uPadded.trimmed
    ∧ (getUser envW (createUser envW st0 uPadded).2 uPadded.id).1 ≠ .ok uPadded := by
  decide

/-- C2 (code bug): the cache TTL written by `GetUser`'s store-path
re-population and by `UpdateUser` is `(exp.UnixMilli()-10)*1e6/6`
nanoseconds — one-sixth of the expiry's absolute Unix-epoch timestamp,
independent of `time.Now()`.  For a record sixty seconds from expiry
(`envC2.nowMilli` = 2024-01-01T00:00:00Z, expiry one minute later), both
operations cache it for about 3287 days, vastly exceeding the
60-second remaining validity window. -/
theorem cache_ttl_exceeds_remaining_validity :
    (getUser envC2 stC2 "u1").2.cache = [("u1", recC2, cacheTTLNanos 1704067260000)]
    ∧ (updateUser envC2 stC2 recC2plain).2.cache =
        [("u1", recC2, cacheTTLNanos 1704067260000)]
    ∧ cacheTTLNanos 1704067260000 = 284011209998333333
    ∧ (1704067260000 - envC2.nowMilli) * 1000000 < cacheTTLNanos 1704067260000 := by
  decide

/-- Counterexample to C4 as stated: under `envC4` the refresh path runs
(the stored expiry is thirty seconds away, inside the two-minute window)
and the upstream provider rejects the refresh, yet the handler's RPC
result carries no error — the stale record is written to `res` and `nil`
is returned. -/
theorem select_handler_swallows_refresh_error :
    envC4.providerToken = .error (.upstreamProviderError "invalid_grant")
    ∧ (getUser envC4 stC4 "u1").1 = .ok recC4plain
    ∧ 1704067230000 - 120000 < envC4.nowMilli
    ∧ (selectHandlerGetUser envC4 stC4 "u1").1 = (none, some recC4plain) := by
  decide

/-- C4 (amended): when the select handler's refresh path runs and either
the provider refresh or the `UpdateUser` persist step fails, the error is
swallowed: the callback returns a non-nil record, the type assertion
succeeds, the record is written to `res` and the handler returns `nil`.
Only a failure of the initial `GetUser` fetch is reported upstream. -/
theorem select_handler_returns_stale_on_refresh_failure
    (env : Env) (st st1 : SvcState) (uid : String) (user : UserAccess) (m : Int)
    (hget : getUser env st uid = (.ok user, st1))
    (hparse : env.parseRFC3339Milli user.expiry = some m)
    (hwin : m - 120000 < env.nowMilli) :
    (∀ e, env.providerToken = .error e →
      selectHandlerGetUser env st uid = ((none, some user), st1))
    ∧ (∀ nt v e2 st2, env.providerToken = .ok nt →
        updateUser env st1 ⟨user.id, nt.accessToken, nt.refreshToken, "Bearer",
          user.scope, env.formatRFC3339Milli nt.expiryMilli⟩ = ((v, some e2), st2) →
        selectHandlerGetUser env st uid = ((none, some v), st2)) := by
  constructor
  · intro e hp
    simp [selectHandlerGetUser, selectCallback, hget, hparse, if_pos hwin, hp]
  · intro nt v e2 st2 hp hupd
    simp [selectHandlerGetUser, selectCallback, hget, hparse, if_pos hwin, hp, hupd]

/-- Witness for C4 (amended): the concrete provider-rejection scenario. -/
theorem select_handler_returns_stale_on_refresh_failure_witness :
    selectHandlerGetUser envC4 stC4 "u1" = ((none, some recC4plain), stC4after) :=
  (select_handler_returns_stale_on_refresh_failure envC4 stC4 stC4after "u1"
    recC4plain 1704067230000 (by decide) (by decide) (by decide)).1
    (.upstreamProviderError "invalid_grant") rfl

/-- Counterexample to C7 as stated: with the record present in the cache
and a failing cache `Delete`, `DeleteUser` returns the cache backend's
error and never reaches the store — the record survives. -/
theorem deleteUser_cache_delete_failure_blocks_store_delete :
    envC7.cacheDeleteErr "u1" = some (.cacheBackendError "u1")
    ∧ deleteUser envC7 stC7 "u1" = (some (.cacheBackendError "u1"), stC7)
    ∧ kvsLookup (deleteUser envC7 stC7 "u1").2.store "u1" = some recT := by
  decide

/-- C7 (amended): for a non-blank id, when the cache lookup succeeds a
failing cache `Delete` is fatal — its error is returned and the store
deletion is skipped; only when the cache `Delete` succeeds, or the cache
lookup fails, does the call proceed to the store deletion, whose outcome
is returned. -/
theorem deleteUser_cache_delete_semantics
    (env : Env) (st : SvcState) (uid : String) (hid : goTrim uid ≠ "") :
    (∀ e, env.cacheGetFails uid = false → (cacheLookup st.cache uid).isSome = true →
      env.cacheDeleteErr uid = some e →
      deleteUser env st uid = (some e, st))
    ∧ (env.cacheGetFails uid = false → (cacheLookup st.cache uid).isSome = true →
      env.cacheDeleteErr uid = none →
      deleteUser env st uid = ((memoryDeleteUserByID st.store uid).2,
        ⟨(memoryDeleteUserByID st.store uid).1, cacheErase st.cache uid⟩))
    ∧ ((env.cacheGetFails uid = true ∨ (cacheLookup st.cache uid).isSome = false) →
      deleteUser env st uid = ((memoryDeleteUserByID st.store uid).2,
        ⟨(memoryDeleteUserByID st.store uid).1, st.cache⟩)) := by
  refine ⟨?_, ?_, ?_⟩
  · intro e hg hl hd
    simp [deleteUser, hid, hg, hl, hd]
  · intro hg hl hd
    simp [deleteUser, hid, hg, hl, hd]
  · intro h
    rcases h with h | h <;> simp [deleteUser, hid, h]

/-- Witness for C7 (amended): the failing-`Delete` case under `envC7` and
the succeeding-`Delete` case under `envW`, on the same state. -/
theorem deleteUser_cache_delete_semantics_witness :
    deleteUser envC7 stC7 "u1" = (some (ServiceError.cacheBackendError "u1"), stC7)
    ∧ deleteUser envW stC7 "u1" = ((memoryDeleteUserByID stC7.store "u1").2,
        ⟨(memoryDeleteUserByID stC7.store "u1").1, cacheErase stC7.cache "u1"⟩) :=
  ⟨(deleteUser_cache_delete_semantics envC7 stC7 "u1" (by decide)).1
      (.cacheBackendError "u1") rfl (by decide) rfl,
   (deleteUser_cache_delete_semantics envW stC7 "u1" (by decide)).2.1
      rfl (by decide) rfl⟩

/-- Counterexample to C8 as stated: `uBadExpiry` has all six fields
non-blank but an unparseable expiry, yet `CreateUser` succeeds and the
record (tokens encrypted, expiry verbatim) lands in the store — nothing
rejects it before persistence. -/
theorem createUser_persists_unparseable_expiry :
    (uBadExpiry.validate).2 = none
    ∧ envC8.parseRFC3339Milli uBadExpiry.expiry = none
    ∧ createUser envC8 st0 uBadExpiry = (none, stC8after) := by
  decide

/-- C8 (amended): `CreateUser` validates only non-blankness; a record
whose expiry is non-blank but unparseable is encrypted and persisted
without error, making it reachable in the store.  Expiry parsing is
enforced later: `GetUser` fails with the parse error after the store
fetch, and `UpdateUser` fails before its cache and store writes. -/
theorem unparseable_expiry_persisted_then_surfaced
    (env : Env) (st : SvcState) (u t : UserAccess) (ea er : String)
    (hval : u.validate = (t, none))
    (hea : env.encrypt t.accessToken = .ok ea)
    (her : env.encrypt t.refreshToken = .ok er)
    (hctx : env.ctxDone = false)
    (hparse : env.parseRFC3339Milli t.expiry = none)
    (hcache : cacheGet env st.cache (goTrim u.id) = none) :
    ∃ st1, createUser env st u = (none, st1)
      ∧ kvsLookup st1.store t.id = some ⟨t.id, ea, er, t.tokenType, t.scope, t.expiry⟩
      ∧ (getUser env st1 u.id).1 = .error (.timeParseError t.expiry)
      ∧ updateUser env st u = ((t, some (.timeParseError t.expiry)), st) := by
  obtain ⟨ht, hid⟩ := validate_ok u t hval
  have hidt : goTrim u.id = t.id := by rw [ht]; rfl
  have hidt' : t.id ≠ "" := hidt ▸ hid
  have hzv : zeroUser.validate =
      (zeroUser, some (ServiceError.invalidModelField "User" "ID" "Should not be empty")) := rfl
  have hc : createUser env st u =
      (none, { st with store := (kvsInsert st.store t.id
        ⟨t.id, ea, er, t.tokenType, t.scope, t.expiry⟩) }) := by
    simp [createUser, hval, hea, her, hctx, memoryInsertUser]
  refine ⟨_, hc, kvsLookup_insert_self _ _ _, ?_, ?_⟩
  · rw [hidt] at hcache
    have hsel : memorySelectUserByID
        (kvsInsert st.store t.id ⟨t.id, ea, er, t.tokenType, t.scope, t.expiry⟩) t.id =
        (⟨t.id, ea, er, t.tokenType, t.scope, t.expiry⟩, none) := by
      simp [memorySelectUserByID, kvsLookup_insert_self]
    simp [getUser, getUserFetch, hidt, hidt', hcache, hzv, hsel, hparse]
  · simp [updateUser, hval, hea, her, hctx, hparse]

/-- Witness for C8 (amended): the concrete `uBadExpiry` scenario under
`envC8`. -/
theorem unparseable_expiry_persisted_then_surfaced_witness :
    createUser envC8 st0 uBadExpiry = (none, stC8after)
    ∧ kvsLookup stC8after.store "u1" = some recC8
    ∧ (getUser envC8 stC8after "u1").1 = .error (.timeParseError "not-a-date")
    ∧ updateUser envC8 st0 uBadExpiry =
        ((uBadExpiry, some (.timeParseError "not-a-date")), st0) := by
  obtain ⟨st1, h1, h2, h3, h4⟩ := unparseable_expiry_persisted_then_surfaced envC8 st0
    uBadExpiry uBadExpiry "EA" "ER" (by decide) (by decide) (by decide) rfl rfl (by decide)
  have h0 : createUser envC8 st0 uBadExpiry = (none, stC8after) := by decide
  have hs : ((none : Option ServiceError), st1) = ((none : Option ServiceError), stC8after) :=
    h1.symm.trans h0
  cases hs
  exact ⟨h0, h2, h3, h4⟩

/-- Counterexample to C9 as stated: the in-memory `InsertUser` accepts a
record that fails validation (blank access token after trimming) and
stores it, returning no error. -/
theorem memory_insertUser_skips_validation :
    (uBlankToken.validate).2 =
      some (.invalidModelField "User" "OAuth Access Token" "Should not be empty")
    ∧ memoryInsertUser [] uBlankToken = ([("u1", uBlankToken)], none) := by
  decide

/-- C9 (amended): only the document-store variant validates: for every
`UserAccess` failing its invariant check, Mongo `InsertUser` fails with
the `ValidationError` and leaves the collection untouched, while the
in-memory `InsertUser` performs no validation and stores the raw invalid
record without error. -/
theorem insertUser_validates_only_in_mongo
    (db m : MemKVS) (u t : UserAccess) (e : ServiceError)
    (hval : u.validate = (t, some e)) :
    e.isValidation = true
    ∧ mongoInsertUser db u = (db, some e)
    ∧ memoryInsertUser m u = (kvsInsert m u.id u, none) := by
  refine ⟨validate_err_isValidation u e (by rw [hval]), ?_, rfl⟩
  simp [mongoInsertUser, hval]

/-- Witness for C9 (amended): the concrete `uBlankToken` scenario. -/
theorem insertUser_validates_only_in_mongo_witness :
    ServiceError.isValidation
      (.invalidModelField "User" "OAuth Access Token" "Should not be empty") = true
    ∧ mongoInsertUser [] uBlankToken =
        ([], some (.invalidModelField "User" "OAuth Access Token" "Should not be empty"))
    ∧ memoryInsertUser [] uBlankToken = (kvsInsert [] uBlankToken.id uBlankToken, none) :=
  insertUser_validates_only_in_mongo [] [] uBlankToken uBlankToken.trimmed
    (.invalidModelField "User" "OAuth Access Token" "Should not be empty") (by decide)

/-- C10: `DeleteUser` validates the trimmed id but forwards the raw
`uid`: with the record stored under the trimmed id only, a
whitespace-padded id makes `DeleteUser` fail with the in-memory
adapter's not-found error, leaving the record intact, while `GetUser`
with the very same padded id succeeds (it trims before looking up). -/
theorem deleteUser_forwards_untrimmed_id
    (env : Env) (st : SvcState) (uid : String) (rec : UserAccess)
    (m : Int) (a r : String)
    (hid : goTrim uid ≠ "")
    (hne : uid ≠ goTrim uid)
    (hsraw : kvsLookup st.store uid = none)
    (hstrim : kvsLookup st.store (goTrim uid) = some rec)
    (hcraw : cacheLookup st.cache uid = none)
    (hctrim : cacheGet env st.cache (goTrim uid) = none)
    (hparse : env.parseRFC3339Milli rec.expiry = some m)
    (hda : env.decrypt rec.accessToken = .ok a)
    (hdr : env.decrypt rec.refreshToken = .ok r)
    (hctx : env.ctxDone = false) :
    deleteUser env st uid = (some (.notFound "user with this id doesn't exist"), st)
    ∧ kvsLookup (deleteUser env st uid).2.store (goTrim uid) = some rec
    ∧ (getUser env st uid).1 = .ok ⟨rec.id, a, r, rec.tokenType, rec.scope, rec.expiry⟩ := by
  have hzv : zeroUser.validate =
      (zeroUser, some (ServiceError.invalidModelField "User" "ID" "Should not be empty")) := rfl
  have hdel : deleteUser env st uid =
      (some (.notFound "user with this id doesn't exist"), st) := by
    simp [deleteUser, hid, hcraw, memoryDeleteUserByID, hsraw]
  refine ⟨hdel, by rw [hdel]; exact hstrim, ?_⟩
  have hsel : memorySelectUserByID st.store (goTrim uid) = (rec, none) := by
    simp [memorySelectUserByID, hstrim]
  cases hpf : env.cachePutFails (goTrim uid) with
  | true => simp [getUser, getUserFetch, hid, hctrim, hzv, hsel, hparse, hpf, hda, hdr, hctx]
  | false => simp [getUser, getUserFetch, hid, hctrim, hzv, hsel, hparse, hpf, hda, hdr, hctx]

/-- Witness for C10: the padded id `" u1 "` against a store holding the
record under `"u1"`. -/
theorem deleteUser_forwards_untrimmed_id_witness :
    deleteUser envW st10 uidPadded =
      (some (ServiceError.notFound "user with this id doesn't exist"), st10)
    ∧ kvsLookup (deleteUser envW st10 uidPadded).2.store (goTrim uidPadded) = some recT
    ∧ (getUser envW st10 uidPadded).1 =
        .ok ⟨recT.id, "A", "R", recT.tokenType, recT.scope, recT.expiry⟩ :=
  deleteUser_forwards_untrimmed_id envW st10 uidPadded recT 4070908800000 "A" "R"
    (by decide) (by decide) (by decide) (by decide) (by decide) (by decide)
    (by decide) (by decide) (by decide) rfl

end GDrive
